import Mathlib

/-!
Verification of the vibe-stats aggregation engine, report model and
renderers.  The report model is translated from `src/vibe_stats/models.py`
and the renderer helpers from `src/vibe_stats/renderer.py`.  The
aggregation engine and the rate-limit monitor are not part of the sources
available here (only their tests are), so they are modelled from the
specification, as marked on each definition.
-/

namespace VibeStats

/-- LanguageStats, translated from `src/vibe_stats/models.py`
(language name, byte count, percentage of bytes).  The Python
`percentage` field is a float; it is modelled here as a rational. -/
structure LanguageStats where
  language : String
  bytes : Nat
  percentage : ℚ
  deriving DecidableEq

/-- ContributorStats, translated from `src/vibe_stats/models.py`. -/
structure ContributorStats where
  username : String
  commits : Nat
  additions : Nat
  deletions : Nat
  deriving DecidableEq

/-- RepoStats, translated from `src/vibe_stats/models.py`. -/
structure RepoStats where
  name : String
  full_name : String
  total_commits : Nat
  total_additions : Nat
  total_deletions : Nat
  open_prs : Nat
  merged_prs : Nat
  open_issues : Nat
  languages : List LanguageStats
  contributors : List ContributorStats
  deriving DecidableEq

/-- OrgReport, translated from `src/vibe_stats/models.py`. -/
structure OrgReport where
  org : String
  period_start : Option String
  period_end : Option String
  total_repos : Nat
  total_commits : Nat
  total_additions : Nat
  total_deletions : Nat
  total_open_prs : Nat
  total_merged_prs : Nat
  total_open_issues : Nat
  languages : List LanguageStats
  contributors : List ContributorStats
  repos : List RepoStats
  failed_repos : List String
  deriving DecidableEq

/-- Modelled from the spec: the forge client's repository records
`{name, full_name}` returned by `list_repos` (§6); the client module
`vibe_stats/github/client.py` is not among the sources. -/
structure RepoInfo where
  name : String
  full_name : String
  deriving DecidableEq

/-- Modelled from the spec: one weekly bucket `{a, d, c}` of a
contributor-stats record (§6). -/
structure WeekStat where
  a : Nat
  d : Nat
  c : Nat
  deriving DecidableEq

/-- Modelled from the spec: a contributor-stats record
`{author: {login}, total, weeks}` (§6); the nested author object is
flattened to its `login` field, the only part the engine reads. -/
structure ContributorRecord where
  login : String
  total : Nat
  weeks : List WeekStat
  deriving DecidableEq

/-- Modelled from the spec: a pull-request record `{state, merged_at?}`
(§6); `created_at` is ignored by the engine and omitted. -/
structure PullRequest where
  state : String
  merged_at : Option String
  deriving DecidableEq

/-- Modelled from the spec: an issue record `{state}` (§6); `title` is
ignored by the engine and omitted. -/
structure Issue where
  state : String
  deriving DecidableEq

/-- Modelled from the spec: the outcome of the five per-repository client
calls of §4.2 step 2 for one repository in one run; `none` for a call
means that call raised an exception. -/
structure RepoFetch where
  listCommits : Option (List String)
  getLanguages : Option (List (String × Nat))
  getContributorStats : Option (List ContributorRecord)
  listPullRequests : Option (List PullRequest)
  listIssues : Option (List Issue)

/-- Modelled from the spec: the forge client (`vibe_stats/github/client.py`
is not among the sources), restricted to one run: `list_repos` is the
response of the repository-listing call (with `include_forks` already
applied by the client) and `fetch` gives each repository's per-call
outcomes (with `since`/`until` already applied). -/
structure ForgeClient where
  list_repos : List RepoInfo
  fetch : String → RepoFetch

/-- Lowercasing of a string, character by character (Python `str.lower`
restricted to the ASCII names the bot heuristic compares). -/
def lowerStr (s : String) : String := String.mk (s.data.map Char.toLower)

/-- Test that `s` ends with `suffix` (Python `str.endswith`). -/
def endsWithStr (s suffix : String) : Bool :=
  decide (s.data.drop (s.data.length - suffix.data.length) = suffix.data)

/-- Modelled from the spec: the fixed set of well-known bot account names
of the bot heuristic (§4.2); `vibe_stats/aggregator.py` is not among the
sources. -/
def KNOWN_BOTS : List String :=
  ["dependabot", "renovate", "github-actions", "codecov", "snyk-bot"]

/-- Modelled from the spec: the bot heuristic `_is_bot` of
`vibe_stats/aggregator.py` (not among the sources): a username is a bot
iff it ends with the literal suffix `[bot]` (case-insensitive) or is a
case-insensitive exact match of a well-known bot name (§4.2). -/
def is_bot (username : String) : Bool :=
  endsWithStr (lowerStr username) "[bot]" || KNOWN_BOTS.contains (lowerStr username)

/-- Modelled from the spec: open pull requests are exactly those with
state `open` (§4.2 step 2d). -/
def countOpenPRs (prs : List PullRequest) : Nat :=
  (prs.filter (fun p => p.state == "open")).length

/-- Modelled from the spec: merged pull requests are exactly those with
state `closed` that carry a merge timestamp (§4.2 step 2d). -/
def countMergedPRs (prs : List PullRequest) : Nat :=
  (prs.filter (fun p => p.state == "closed" && p.merged_at.isSome)).length

/-- Modelled from the spec: open issues are those with state `open`
(§4.2 step 2e). -/
def countOpenIssues (issues : List Issue) : Nat :=
  (issues.filter (fun i => i.state == "open")).length

/-- Stable insertion of `a` into a list sorted descending by `key`:
`a` is placed before the first element whose key is at most `key a`. -/
def insertByDesc {α : Type} (key : α → Nat) (a : α) : List α → List α
  | [] => [a]
  | b :: rest => if key b ≤ key a then a :: b :: rest else b :: insertByDesc key a rest

/-- Stable descending sort by `key` (the spec allows any stable sort,
§4.2 step 4). -/
def sortDesc {α : Type} (key : α → Nat) (l : List α) : List α :=
  l.foldr (insertByDesc key) []

/-- Modelled from the spec: a language-byte mapping converted to
percentages of the scope's byte total and sorted descending by byte
count (§4.2 steps 2 and 3). -/
def toLanguageStats (langs : List (String × Nat)) : List LanguageStats :=
  let total := (langs.map (fun p => p.2)).sum
  (sortDesc (fun p => p.2) langs).map
    (fun p => { language := p.1, bytes := p.2, percentage := (p.2 : ℚ) * 100 / (total : ℚ) })

/-- Modelled from the spec: a contributor's per-repository entry —
commits taken from the record's lifetime total, additions and deletions
summed over the weekly buckets (§4.2 step 2c). -/
def contribOfRecord (rec : ContributorRecord) : ContributorStats :=
  { username := rec.login
    commits := rec.total
    additions := (rec.weeks.map (fun w => w.a)).sum
    deletions := (rec.weeks.map (fun w => w.d)).sum }

/-- Modelled from the spec: per-repository collection, §4.2 step 2.  If
any of the five client calls raised, no RepoStats is created (`none`);
otherwise a RepoStats is built from the collected values. -/
def collectRepo (info : RepoInfo) (f : RepoFetch) : Option RepoStats :=
  match f.listCommits, f.getLanguages, f.getContributorStats,
      f.listPullRequests, f.listIssues with
  | some commits, some langs, some recs, some prs, some issues =>
    let contribs := recs.map contribOfRecord
    some { name := info.name
           full_name := info.full_name
           total_commits := commits.length
           total_additions := (contribs.map (fun c => c.additions)).sum
           total_deletions := (contribs.map (fun c => c.deletions)).sum
           open_prs := countOpenPRs prs
           merged_prs := countMergedPRs prs
           open_issues := countOpenIssues issues
           languages := toLanguageStats langs
           contributors := contribs }
  | _, _, _, _, _ => none

/-- Modelled from the spec: per-repository collection over the whole
batch, keeping the successes (in order) and the names of the failed
repositories (in order), §4.2 step 2 and §7. -/
def collectResults (fetch : String → RepoFetch) : List RepoInfo → List RepoStats × List String
  | [] => ([], [])
  | r :: rest =>
    match collectRepo r (fetch r.name) with
    | some s => (s :: (collectResults fetch rest).1, (collectResults fetch rest).2)
    | none => ((collectResults fetch rest).1, r.name :: (collectResults fetch rest).2)

/-- Combination of two per-repository entries of the same contributor:
commits, additions and deletions each summed (§4.2 step 3). -/
def combine (a b : ContributorStats) : ContributorStats :=
  { username := a.username
    commits := a.commits + b.commits
    additions := a.additions + b.additions
    deletions := a.deletions + b.deletions }

/-- Addition of one per-repository contributor entry into the running
organization-wide list: merged into the existing entry of the same
username, or appended. -/
def addContrib : List ContributorStats → ContributorStats → List ContributorStats
  | [], c => [c]
  | a :: rest, c =>
    if a.username = c.username then combine a c :: rest
    else a :: addContrib rest c

/-- Modelled from the spec: organization-wide contributor stats, summed
per username across repositories (§4.2 step 3). -/
def mergeContribs (stats : List RepoStats) : List ContributorStats :=
  (stats.flatMap (fun s => s.contributors)).foldl addContrib []

/-- Addition of one repository's language-byte pair into the running
organization-wide byte mapping. -/
def addLangBytes : List (String × Nat) → (String × Nat) → List (String × Nat)
  | [], p => [p]
  | q :: rest, p =>
    if q.1 = p.1 then (q.1, q.2 + p.2) :: rest else q :: addLangBytes rest p

/-- Modelled from the spec: organization-wide language bytes, summed per
language name across repositories (§4.2 step 3). -/
def mergeLangBytes (stats : List RepoStats) : List (String × Nat) :=
  (stats.flatMap (fun s => s.languages.map (fun l => (l.language, l.bytes)))).foldl
    addLangBytes []

/-- Modelled from the spec: the `options` bundle of `aggregate` (§4.2). -/
structure Options where
  repo : Option String
  since : Option String
  until_ : Option String
  include_forks : Bool
  exclude_repos : List String
  exclude_bots : Bool
  min_commits : Nat
  sort_by : String

/-- Modelled from the spec: the sort key `_sort_key` of
`vibe_stats/aggregator.py` (not among the sources): commits, additions,
deletions, or lines = additions + deletions (§4.2 step 4); any other
value falls back to commits. -/
def sortKey (sort_by : String) (c : ContributorStats) : Nat :=
  match sort_by with
  | "additions" => c.additions
  | "deletions" => c.deletions
  | "lines" => c.additions + c.deletions
  | _ => c.commits

/-- Modelled from the spec: contributor filtering, §4.2 step 4 — the bot
filter when `exclude_bots` is set, then the `min_commits` threshold when
it is positive (zero performs no filtering). -/
def filterContribs (opts : Options) (l : List ContributorStats) : List ContributorStats :=
  let l1 := if opts.exclude_bots then l.filter (fun c => !is_bot c.username) else l
  if 0 < opts.min_commits then l1.filter (fun c => opts.min_commits ≤ c.commits) else l1

/-- Modelled from the spec: contributor ordering, §4.2 step 4 — stable
sort descending by the selected key. -/
def sortContribs (sort_by : String) (l : List ContributorStats) : List ContributorStats :=
  sortDesc (sortKey sort_by) l

/-- Modelled from the spec: repository resolution, §4.2 step 1 — a single
named repository bypasses the org-wide listing; otherwise the listed
repositories minus `exclude_repos`. -/
def resolveRepos (client : ForgeClient) (org : String) (opts : Options) : List RepoInfo :=
  match opts.repo with
  | some r => [{ name := r, full_name := org ++ "/" ++ r }]
  | none => client.list_repos.filter (fun r => !opts.exclude_repos.contains r.name)

/-- Modelled from the spec: the aggregation engine `aggregate_org_report`
of `vibe_stats/aggregator.py` (not among the sources), §4.2 — repository
resolution, per-repository collection with failure isolation,
organization-wide merge, contributor filtering and ordering, report
assembly. -/
def aggregate (client : ForgeClient) (org : String) (opts : Options) : OrgReport :=
  let res := collectResults client.fetch (resolveRepos client org opts)
  { org := org
    period_start := opts.since
    period_end := opts.until_
    total_repos := res.1.length
    total_commits := (res.1.map (fun s => s.total_commits)).sum
    total_additions := (res.1.map (fun s => s.total_additions)).sum
    total_deletions := (res.1.map (fun s => s.total_deletions)).sum
    total_open_prs := (res.1.map (fun s => s.open_prs)).sum
    total_merged_prs := (res.1.map (fun s => s.merged_prs)).sum
    total_open_issues := (res.1.map (fun s => s.open_issues)).sum
    languages := toLanguageStats (mergeLangBytes res.1)
    contributors := sortContribs opts.sort_by (filterContribs opts (mergeContribs res.1))
    repos := res.1
    failed_repos := res.2 }

/-- Modelled from the spec: the rate-limit monitor's state, §4.1 —
`remaining` and `reset_at` optional ("unknown"), plus the configured
threshold (default 10); `vibe_stats/github/rate_limit.py` is not among
the sources. -/
structure RateLimitMonitor where
  remaining : Option Nat
  reset_at : Option Int
  threshold : Nat

/-- Modelled from the spec: `wait_if_needed` of the rate-limit monitor
(§4.1), returning the number of seconds the caller is suspended for: zero
when `remaining` is unknown or above the threshold, otherwise
`max 0 (reset_at − now) + 1`.  The spec leaves the delay term undefined
when `reset_at` is unknown; the model then takes `reset_at − now` as 0. -/
def wait_if_needed (m : RateLimitMonitor) (now : Int) : Int :=
  match m.remaining with
  | none => 0
  | some r =>
    if m.threshold < r then 0
    else max 0 (m.reset_at.getD now - now) + 1

/-- JSON values, as produced by `json.dumps(asdict(report))` in
`render_json` of `src/vibe_stats/renderer.py`.  Integer and non-integer
numbers are kept in distinct constructors; object keys keep insertion
order, exactly as Python dicts and `json.dumps` do. -/
inductive Json where
  | null : Json
  | str : String → Json
  | num : Int → Json
  | flt : ℚ → Json
  | arr : List Json → Json
  | obj : List (String × Json) → Json

/-- Serialization of a natural-number field as a JSON number. -/
def natJson (n : Nat) : Json := Json.num (Int.ofNat n)

/-- Serialization of an optional string field (`None` becomes `null`). -/
def optStrJson : Option String → Json
  | none => Json.null
  | some s => Json.str s

/-- Serialization of a LanguageStats, mirroring `dataclasses.asdict`:
fields in declaration order. -/
def langToJson (l : LanguageStats) : Json :=
  Json.obj [("language", Json.str l.language), ("bytes", natJson l.bytes),
    ("percentage", Json.flt l.percentage)]

/-- Serialization of a ContributorStats, mirroring `dataclasses.asdict`. -/
def contribToJson (c : ContributorStats) : Json :=
  Json.obj [("username", Json.str c.username), ("commits", natJson c.commits),
    ("additions", natJson c.additions), ("deletions", natJson c.deletions)]

/-- Serialization of a RepoStats, mirroring `dataclasses.asdict`. -/
def repoToJson (s : RepoStats) : Json :=
  Json.obj [("name", Json.str s.name), ("full_name", Json.str s.full_name),
    ("total_commits", natJson s.total_commits),
    ("total_additions", natJson s.total_additions),
    ("total_deletions", natJson s.total_deletions),
    ("open_prs", natJson s.open_prs), ("merged_prs", natJson s.merged_prs),
    ("open_issues", natJson s.open_issues),
    ("languages", Json.arr (s.languages.map langToJson)),
    ("contributors", Json.arr (s.contributors.map contribToJson))]

/-- Serialization of an OrgReport, mirroring `json.dumps(asdict(report))`
in `render_json` of `src/vibe_stats/renderer.py`. -/
def reportToJson (r : OrgReport) : Json :=
  Json.obj [("org", Json.str r.org), ("period_start", optStrJson r.period_start),
    ("period_end", optStrJson r.period_end),
    ("total_repos", natJson r.total_repos),
    ("total_commits", natJson r.total_commits),
    ("total_additions", natJson r.total_additions),
    ("total_deletions", natJson r.total_deletions),
    ("total_open_prs", natJson r.total_open_prs),
    ("total_merged_prs", natJson r.total_merged_prs),
    ("total_open_issues", natJson r.total_open_issues),
    ("languages", Json.arr (r.languages.map langToJson)),
    ("contributors", Json.arr (r.contributors.map contribToJson)),
    ("repos", Json.arr (r.repos.map repoToJson)),
    ("failed_repos", Json.arr (r.failed_repos.map Json.str))]

/-- Elementwise parsing of a list; fails when any element fails. -/
def optMap {α β : Type} (g : β → Option α) : List β → Option (List α)
  | [] => some []
  | b :: bs =>
    match g b, optMap g bs with
    | some a, some rest => some (a :: rest)
    | _, _ => none

/-- Parsing of an optional-string field back from JSON. -/
def optStrFromJson : Json → Option (Option String)
  | Json.null => some none
  | Json.str s => some (some s)
  | _ => none

/-- Parsing of a plain string back from JSON. -/
def strFromJson : Json → Option String
  | Json.str s => some s
  | _ => none

/-- Parsing of a natural-number field back from JSON. -/
def natFromJson : Json → Option Nat
  | Json.num (Int.ofNat n) => some n
  | _ => none

/-- Parsing of a rational (float) field back from JSON. -/
def fltFromJson : Json → Option ℚ
  | Json.flt q => some q
  | _ => none

/-- Parsing of an array field back from JSON, elementwise. -/
def arrFromJson {α : Type} (g : Json → Option α) : Json → Option (List α)
  | Json.arr js => optMap g js
  | _ => none

/-- Parsing of one named object entry: the key must match, the value is
handed to the element parser. -/
def field {α : Type} (k : String) (parse : Json → Option α) (p : String × Json) : Option α :=
  if p.1 = k then parse p.2 else none

/-- Parsing of a LanguageStats back from its serialization. -/
def langFromJson : Json → Option LanguageStats
  | Json.obj [p1, p2, p3] =>
    match field "language" strFromJson p1, field "bytes" natFromJson p2,
        field "percentage" fltFromJson p3 with
    | some s, some b, some p => some { language := s, bytes := b, percentage := p }
    | _, _, _ => none
  | _ => none

/-- Parsing of a ContributorStats back from its serialization. -/
def contribFromJson : Json → Option ContributorStats
  | Json.obj [p1, p2, p3, p4] =>
    match field "username" strFromJson p1, field "commits" natFromJson p2,
        field "additions" natFromJson p3, field "deletions" natFromJson p4 with
    | some u, some c, some a, some d =>
      some { username := u, commits := c, additions := a, deletions := d }
    | _, _, _, _ => none
  | _ => none

/-- Parsing of a RepoStats back from its serialization. -/
def repoFromJson : Json → Option RepoStats
  | Json.obj [p1, p2, p3, p4, p5, p6, p7, p8, p9, p10] =>
    match field "name" strFromJson p1, field "full_name" strFromJson p2,
        field "total_commits" natFromJson p3, field "total_additions" natFromJson p4,
        field "total_deletions" natFromJson p5, field "open_prs" natFromJson p6,
        field "merged_prs" natFromJson p7, field "open_issues" natFromJson p8,
        field "languages" (arrFromJson langFromJson) p9,
        field "contributors" (arrFromJson contribFromJson) p10 with
    | some n, some fn, some tc, some ta, some td, some op, some mp, some oi, some ls, some cs =>
      some { name := n, full_name := fn, total_commits := tc, total_additions := ta,
             total_deletions := td, open_prs := op, merged_prs := mp, open_issues := oi,
             languages := ls, contributors := cs }
    | _, _, _, _, _, _, _, _, _, _ => none
  | _ => none

/-- Parsing of an OrgReport back from its serialization. -/
def reportFromJson : Json → Option OrgReport
  | Json.obj [p1, p2, p3, p4, p5, p6, p7, p8, p9, p10, p11, p12, p13, p14] =>
    match field "org" strFromJson p1, field "period_start" optStrFromJson p2,
        field "period_end" optStrFromJson p3, field "total_repos" natFromJson p4,
        field "total_commits" natFromJson p5, field "total_additions" natFromJson p6,
        field "total_deletions" natFromJson p7, field "total_open_prs" natFromJson p8,
        field "total_merged_prs" natFromJson p9, field "total_open_issues" natFromJson p10,
        field "languages" (arrFromJson langFromJson) p11,
        field "contributors" (arrFromJson contribFromJson) p12,
        field "repos" (arrFromJson repoFromJson) p13,
        field "failed_repos" (arrFromJson strFromJson) p14 with
    | some o, some ps, some pe, some tr, some tc, some ta, some td, some topn, some tm,
        some toi, some ls, some cs, some rs, some fs =>
      some { org := o, period_start := ps, period_end := pe, total_repos := tr,
             total_commits := tc, total_additions := ta, total_deletions := td,
             total_open_prs := topn, total_merged_prs := tm, total_open_issues := toi,
             languages := ls, contributors := cs, repos := rs, failed_repos := fs }
    | _, _, _, _, _, _, _, _, _, _, _, _, _, _ => none
  | _ => none

/-- Row of one contributor in the CSV output, translated from
`render_csv` in `src/vibe_stats/renderer.py`. -/
def contributorRow (c : ContributorStats) : List String :=
  [c.username, toString c.commits, toString c.additions, toString c.deletions]

/-- Rows written by `render_csv` in `src/vibe_stats/renderer.py`: the
header row, then one row per contributor in report order. -/
def render_csv_rows (r : OrgReport) : List (List String) :=
  ["username", "commits", "additions", "deletions"] :: r.contributors.map contributorRow

/-- Language entries iterated by the language-distribution table of
`render_report` in `src/vibe_stats/renderer.py` (`report.languages[:15]`). -/
def renderedLanguages (r : OrgReport) : List LanguageStats :=
  r.languages.take 15

/-- Contributor entries iterated by the top-contributors table of
`render_report` in `src/vibe_stats/renderer.py`
(`report.contributors[:top_n]`, `top_n` defaulting to 10). -/
def renderedContributors (r : OrgReport) (top_n : Nat) : List ContributorStats :=
  r.contributors.take top_n

/-! Helper lemmas. -/

theorem insertByDesc_perm {α : Type} (key : α → Nat) (a : α) (l : List α) :
    (insertByDesc key a l).Perm (a :: l) := by
  induction l with
  | nil => simp [insertByDesc]
  | cons b rest ih =>
    simp only [insertByDesc]
    split
    · exact List.Perm.refl _
    · exact (List.Perm.cons b ih).trans (List.Perm.swap a b rest)

theorem sortDesc_perm {α : Type} (key : α → Nat) (l : List α) :
    (sortDesc key l).Perm l := by
  induction l with
  | nil => exact List.Perm.refl _
  | cons a rest ih =>
    exact (insertByDesc_perm key a (sortDesc key rest)).trans (List.Perm.cons a ih)

theorem count_filter_ite {α : Type} [DecidableEq α] (p : α → Bool) (a : α) (l : List α) :
    List.count a (l.filter p) = if p a then List.count a l else 0 := by
  split
  · exact List.count_filter (by assumption)
  · refine List.count_eq_zero.mpr (fun hm => ?_)
    have := (List.mem_filter.mp hm).2
    simp_all

/-! C4 — pull-request partition. -/

/-- C4: for every list of pull-request records the engine counts as open
exactly those with state `"open"`, counts as merged exactly those with
state `"closed"` that carry a merge timestamp, and a closed record
without a merge timestamp is counted in neither total. -/
theorem pr_partition_spec (prs pre post : List PullRequest) (p : PullRequest)
    (hs : p.state = "closed") (hm : p.merged_at = none) :
    countOpenPRs prs = (prs.filter (fun q => decide (q.state = "open"))).length
      ∧ countMergedPRs prs
          = (prs.filter (fun q => decide (q.state = "closed" ∧ q.merged_at.isSome = true))).length
      ∧ countOpenPRs (pre ++ p :: post) = countOpenPRs (pre ++ post)
      ∧ countMergedPRs (pre ++ p :: post) = countMergedPRs (pre ++ post) := by
  refine ⟨?_, ?_, ?_, ?_⟩
  · unfold countOpenPRs
    congr 1
  · unfold countMergedPRs
    congr 1
    refine List.filter_congr (fun q _ => ?_)
    by_cases h : q.state = "closed" <;> by_cases h2 : q.merged_at.isSome <;> simp [h, h2]
  · unfold countOpenPRs
    simp [List.filter_append, List.filter_cons, hs]
  · unfold countMergedPRs
    simp [List.filter_append, List.filter_cons, hm]

/-- C4 witness: a concrete batch with one open, one merged and one
closed-but-unmerged pull request. -/
theorem pr_partition_spec_witness :
    (⟨"closed", none⟩ : PullRequest).state = "closed"
      ∧ (⟨"closed", none⟩ : PullRequest).merged_at = none
      ∧ (countOpenPRs [⟨"open", none⟩, ⟨"closed", some "t"⟩, ⟨"closed", none⟩]
          = ([⟨"open", none⟩, ⟨"closed", some "t"⟩, ⟨"closed", none⟩].filter
              (fun q : PullRequest => decide (q.state = "open"))).length
        ∧ countMergedPRs [⟨"open", none⟩, ⟨"closed", some "t"⟩, ⟨"closed", none⟩]
            = ([⟨"open", none⟩, ⟨"closed", some "t"⟩, ⟨"closed", none⟩].filter
                (fun q : PullRequest => decide (q.state = "closed" ∧ q.merged_at.isSome = true))).length
        ∧ countOpenPRs ([⟨"open", none⟩] ++ (⟨"closed", none⟩ : PullRequest) :: [⟨"closed", some "t"⟩])
            = countOpenPRs ([⟨"open", none⟩] ++ [⟨"closed", some "t"⟩])
        ∧ countMergedPRs ([⟨"open", none⟩] ++ (⟨"closed", none⟩ : PullRequest) :: [⟨"closed", some "t"⟩])
            = countMergedPRs ([⟨"open", none⟩] ++ [⟨"closed", some "t"⟩])) :=
  ⟨rfl, rfl,
    pr_partition_spec [⟨"open", none⟩, ⟨"closed", some "t"⟩, ⟨"closed", none⟩]
      [⟨"open", none⟩] [⟨"closed", some "t"⟩] ⟨"closed", none⟩ rfl rfl⟩

/-! C7 — rate-limit pacing. -/

/-- C7: `wait_if_needed` suspends for zero time when the remaining budget
is unknown or above the threshold, otherwise for exactly
`max 0 (reset_at − now) + 1` seconds; the delay is never negative, and a
`reset_at` in the past collapses it to one second. -/
theorem wait_if_needed_spec (m : RateLimitMonitor) (now : Int) :
    0 ≤ wait_if_needed m now
      ∧ (m.remaining = none → wait_if_needed m now = 0)
      ∧ (∀ r : Nat, m.remaining = some r → m.threshold < r → wait_if_needed m now = 0)
      ∧ (∀ (r : Nat) (t : Int), m.remaining = some r → r ≤ m.threshold →
          m.reset_at = some t → wait_if_needed m now = max 0 (t - now) + 1)
      ∧ (∀ (r : Nat) (t : Int), m.remaining = some r → r ≤ m.threshold →
          m.reset_at = some t → t ≤ now → wait_if_needed m now = 1) := by
  obtain ⟨rem, ra, th⟩ := m
  refine ⟨?_, ?_, ?_, ?_, ?_⟩
  · cases rem with
    | none => simp [wait_if_needed]
    | some r =>
      simp only [wait_if_needed]
      split
      · exact le_refl 0
      · have := le_max_left 0 (ra.getD now - now)
        omega
  · intro h
    subst h
    rfl
  · intro r hrem hlt
    subst hrem
    simp [wait_if_needed, hlt]
  · intro r t hrem hle hra
    subst hrem
    subst hra
    simp [wait_if_needed, Option.getD, Nat.not_lt.mpr hle]
  · intro r t hrem hle hra hpast
    subst hrem
    subst hra
    have hmax : max 0 (t - now) = 0 := max_eq_left (by omega)
    simp [wait_if_needed, Option.getD, Nat.not_lt.mpr hle, hmax]

/-- C7 witness: remaining 5 with threshold 10 and a reset time in the
past gives exactly a one-second delay; an unknown budget and a budget
above the threshold give no delay. -/
theorem wait_if_needed_spec_witness :
    0 ≤ wait_if_needed ⟨some 5, some (-3), 10⟩ 0
      ∧ wait_if_needed ⟨some 5, some (-3), 10⟩ 0 = max 0 ((-3 : Int) - 0) + 1
      ∧ wait_if_needed ⟨some 5, some (-3), 10⟩ 0 = 1
      ∧ wait_if_needed ⟨none, none, 10⟩ 0 = 0
      ∧ wait_if_needed ⟨some 50, some 3600, 10⟩ 0 = 0 :=
  ⟨(wait_if_needed_spec ⟨some 5, some (-3), 10⟩ 0).1,
   (wait_if_needed_spec ⟨some 5, some (-3), 10⟩ 0).2.2.2.1 5 (-3) rfl (by decide) rfl,
   (wait_if_needed_spec ⟨some 5, some (-3), 10⟩ 0).2.2.2.2 5 (-3) rfl (by decide) rfl (by decide),
   (wait_if_needed_spec ⟨none, none, 10⟩ 0).2.1 rfl,
   (wait_if_needed_spec ⟨some 50, some 3600, 10⟩ 0).2.2.1 50 rfl (by decide)⟩

/-! C9 — CSV renderer. -/

/-- C9: the CSV renderer emits first a header row `username, commits,
additions, deletions`, then exactly one row per contributor in report
order with that contributor's four values, and nothing else. -/
theorem render_csv_spec (r : OrgReport) :
    render_csv_rows r
        = ["username", "commits", "additions", "deletions"] :: r.contributors.map contributorRow
      ∧ (render_csv_rows r).length = r.contributors.length + 1
      ∧ ∀ i : Nat, (render_csv_rows r)[i + 1]? = (r.contributors[i]?).map contributorRow := by
  refine ⟨rfl, by simp [render_csv_rows], fun i => ?_⟩
  simp [render_csv_rows]

/-! C10 — table renderer truncation. -/

/-- C10: the table renderer truncates its output to the first 15 language
entries and the first `top_n` contributor entries: within the cutoff the
rendered entry is the report's entry at the same index, beyond it nothing
is rendered, while the report itself keeps all entries. -/
theorem render_table_truncation (r : OrgReport) (top_n i : Nat) :
    (renderedLanguages r).length = min 15 r.languages.length
      ∧ (renderedContributors r top_n).length = min top_n r.contributors.length
      ∧ (renderedLanguages r)[i]? = (if i < 15 then r.languages[i]? else none)
      ∧ (renderedContributors r top_n)[i]? = (if i < top_n then r.contributors[i]? else none) := by
  refine ⟨?_, ?_, ?_, ?_⟩ <;>
    simp [renderedLanguages, renderedContributors, List.length_take, List.getElem?_take]

/-! C8 — JSON serialization round-trip. -/

theorem optMap_map {α β : Type} (f : α → β) (g : β → Option α)
    (h : ∀ a, g (f a) = some a) (l : List α) : optMap g (l.map f) = some l := by
  induction l with
  | nil => rfl
  | cons a l ih => simp [optMap, h, ih]

theorem langFromJson_toJson (l : LanguageStats) : langFromJson (langToJson l) = some l := rfl

theorem contribFromJson_toJson (c : ContributorStats) :
    contribFromJson (contribToJson c) = some c := rfl

theorem strFromJson_str (s : String) : strFromJson (Json.str s) = some s := rfl

theorem optStrFromJson_toJson (o : Option String) :
    optStrFromJson (optStrJson o) = some o := by
  cases o <;> rfl

theorem repoFromJson_toJson (s : RepoStats) : repoFromJson (repoToJson s) = some s := by
  simp [repoToJson, repoFromJson, natJson, field, arrFromJson, strFromJson, natFromJson,
    optMap_map langToJson langFromJson langFromJson_toJson,
    optMap_map contribToJson contribFromJson contribFromJson_toJson]

/-- C8: the serialization used by the JSON renderer is complete and
order-preserving — an OrgReport, with every nested RepoStats,
ContributorStats and LanguageStats, parses back from its serialization
to a report structurally equal to the original. -/
theorem report_json_roundtrip (r : OrgReport) :
    reportFromJson (reportToJson r) = some r := by
  simp [reportToJson, reportFromJson, natJson, field, arrFromJson, strFromJson, natFromJson, optStrFromJson_toJson,
    optMap_map langToJson langFromJson langFromJson_toJson,
    optMap_map contribToJson contribFromJson contribFromJson_toJson,
    optMap_map repoToJson repoFromJson repoFromJson_toJson,
    optMap_map Json.str strFromJson strFromJson_str]

/-! C2 — repository counting. -/

theorem collectResults_length (fetch : String → RepoFetch) (l : List RepoInfo) :
    (collectResults fetch l).1.length + (collectResults fetch l).2.length = l.length := by
  induction l with
  | nil => rfl
  | cons r rest ih =>
    simp only [collectResults]
    cases h : collectRepo r (fetch r.name) <;> simp [h] <;> omega

/-- C2: `total_repos` counts the successfully processed repositories: it
equals the length of the `repos` list, and with no filters it equals the
number of candidate repositories minus the number of failed ones. -/
theorem total_repos_spec (client : ForgeClient) (org : String) (opts : Options)
    (hrepo : opts.repo = none) (hexc : opts.exclude_repos = []) :
    (aggregate client org opts).total_repos = (aggregate client org opts).repos.length
      ∧ (aggregate client org opts).total_repos + (aggregate client org opts).failed_repos.length
          = client.list_repos.length
      ∧ (aggregate client org opts).total_repos
          = client.list_repos.length - (aggregate client org opts).failed_repos.length := by
  have hres : resolveRepos client org opts = client.list_repos := by
    simp [resolveRepos, hrepo, hexc]
  have hlen := collectResults_length client.fetch (resolveRepos client org opts)
  refine ⟨rfl, ?_, ?_⟩ <;> simp only [aggregate] <;> rw [hres] at hlen ⊢ <;> omega

/-- C2 witness: two candidate repositories, one failing, no filters. -/
theorem total_repos_spec_witness :
    (⟨none, none, none, false, [], false, 0, "commits"⟩ : Options).repo = none
      ∧ (⟨none, none, none, false, [], false, 0, "commits"⟩ : Options).exclude_repos = []
      ∧ ((aggregate
            ⟨[⟨"good", "org/good"⟩, ⟨"bad", "org/bad"⟩],
              fun n =>
                if n = "bad" then ⟨none, some [], some [], some [], some []⟩
                else ⟨some ["sha"], some [], some [], some [], some []⟩⟩
            "org" ⟨none, none, none, false, [], false, 0, "commits"⟩).total_repos
          = (aggregate
              ⟨[⟨"good", "org/good"⟩, ⟨"bad", "org/bad"⟩],
                fun n =>
                  if n = "bad" then ⟨none, some [], some [], some [], some []⟩
                  else ⟨some ["sha"], some [], some [], some [], some []⟩⟩
              "org" ⟨none, none, none, false, [], false, 0, "commits"⟩).repos.length
        ∧ (aggregate
            ⟨[⟨"good", "org/good"⟩, ⟨"bad", "org/bad"⟩],
              fun n =>
                if n = "bad" then ⟨none, some [], some [], some [], some []⟩
                else ⟨some ["sha"], some [], some [], some [], some []⟩⟩
            "org" ⟨none, none, none, false, [], false, 0, "commits"⟩).total_repos
            + (aggregate
              ⟨[⟨"good", "org/good"⟩, ⟨"bad", "org/bad"⟩],
                fun n =>
                  if n = "bad" then ⟨none, some [], some [], some [], some []⟩
                  else ⟨some ["sha"], some [], some [], some [], some []⟩⟩
              "org" ⟨none, none, none, false, [], false, 0, "commits"⟩).failed_repos.length
          = 2
        ∧ (aggregate
            ⟨[⟨"good", "org/good"⟩, ⟨"bad", "org/bad"⟩],
              fun n =>
                if n = "bad" then ⟨none, some [], some [], some [], some []⟩
                else ⟨some ["sha"], some [], some [], some [], some []⟩⟩
            "org" ⟨none, none, none, false, [], false, 0, "commits"⟩).total_repos
          = 2 - (aggregate
              ⟨[⟨"good", "org/good"⟩, ⟨"bad", "org/bad"⟩],
                fun n =>
                  if n = "bad" then ⟨none, some [], some [], some [], some []⟩
                  else ⟨some ["sha"], some [], some [], some [], some []⟩⟩
              "org" ⟨none, none, none, false, [], false, 0, "commits"⟩).failed_repos.length) :=
  ⟨rfl, rfl,
    total_repos_spec
      ⟨[⟨"good", "org/good"⟩, ⟨"bad", "org/bad"⟩],
        fun n =>
          if n = "bad" then ⟨none, some [], some [], some [], some []⟩
          else ⟨some ["sha"], some [], some [], some [], some []⟩⟩
      "org" ⟨none, none, none, false, [], false, 0, "commits"⟩ rfl rfl⟩

/-! C5, C6 — contributor filtering. -/

theorem count_sortContribs (sort_by : String) (l : List ContributorStats)
    (c : ContributorStats) :
    List.count c (sortContribs sort_by l) = List.count c l :=
  (sortDesc_perm (sortKey sort_by) l).count_eq c

theorem resolveRepos_congr (client : ForgeClient) (org : String) (o1 o2 : Options)
    (h1 : o1.repo = o2.repo) (h2 : o1.exclude_repos = o2.exclude_repos) :
    resolveRepos client org o1 = resolveRepos client org o2 := by
  unfold resolveRepos
  rw [h1, h2]

/-- C5: the bot classifier accepts exactly usernames ending in `[bot]`
(case-insensitive) or case-insensitively equal to a well-known bot name;
`my-bot-project` is not a bot; with `exclude_bots` set, exactly the
classified usernames are dropped from the contributor list. -/
theorem bot_filter_spec (client : ForgeClient) (org : String) (opts : Options)
    (c : ContributorStats) (u : String) (hmin : opts.min_commits = 0) :
    is_bot u = (endsWithStr (lowerStr u) "[bot]" || KNOWN_BOTS.contains (lowerStr u))
      ∧ is_bot "my-bot-project" = false
      ∧ KNOWN_BOTS.all (fun b => is_bot b) = true
      ∧ (is_bot "Dependabot" = true ∧ is_bot "SomeBot[BOT]" = true)
      ∧ List.count c (aggregate client org { opts with exclude_bots := true }).contributors
          = (if is_bot c.username then 0
             else List.count c
               (aggregate client org { opts with exclude_bots := false }).contributors) := by
  refine ⟨rfl, by decide, by decide, ⟨by decide, by decide⟩, ?_⟩
  have hr1 : resolveRepos client org { opts with exclude_bots := true, min_commits := 0 }
      = resolveRepos client org opts := resolveRepos_congr client org _ _ rfl rfl
  have hr2 : resolveRepos client org { opts with exclude_bots := false, min_commits := 0 }
      = resolveRepos client org opts := resolveRepos_congr client org _ _ rfl rfl
  have hA : (aggregate client org { opts with exclude_bots := true }).contributors
      = sortContribs opts.sort_by
          ((mergeContribs (collectResults client.fetch (resolveRepos client org opts)).1).filter
            (fun x => !is_bot x.username)) := by
    simp [aggregate, filterContribs, hmin, hr1]
  have hB : (aggregate client org { opts with exclude_bots := false }).contributors
      = sortContribs opts.sort_by
          (mergeContribs (collectResults client.fetch (resolveRepos client org opts)).1) := by
    simp [aggregate, filterContribs, hmin, hr2]
  rw [hA, hB, count_sortContribs, count_sortContribs, count_filter_ite]
  by_cases hb : is_bot c.username <;> simp [hb]

/-- C5 witness: a run containing a human and two bot contributors with
`exclude_bots` set drops exactly the bots. -/
theorem bot_filter_spec_witness :
    (⟨none, none, none, false, [], false, 0, "commits"⟩ : Options).min_commits = 0
      ∧ List.count ⟨"dependabot[bot]", 3, 10, 5⟩
          (aggregate
            ⟨[⟨"repo1", "org/repo1"⟩],
              fun _ => ⟨some [], some [],
                some [⟨"alice", 10, [⟨100, 50, 10⟩]⟩, ⟨"dependabot[bot]", 3, [⟨10, 5, 3⟩]⟩],
                some [], some []⟩⟩
            "org"
            { (⟨none, none, none, false, [], false, 0, "commits"⟩ : Options) with
                exclude_bots := true }).contributors
        = (if is_bot (⟨"dependabot[bot]", 3, 10, 5⟩ : ContributorStats).username then 0
           else List.count ⟨"dependabot[bot]", 3, 10, 5⟩
             (aggregate
               ⟨[⟨"repo1", "org/repo1"⟩],
                 fun _ => ⟨some [], some [],
                   some [⟨"alice", 10, [⟨100, 50, 10⟩]⟩, ⟨"dependabot[bot]", 3, [⟨10, 5, 3⟩]⟩],
                   some [], some []⟩⟩
               "org"
               { (⟨none, none, none, false, [], false, 0, "commits"⟩ : Options) with
                   exclude_bots := false }).contributors) :=
  ⟨rfl,
    (bot_filter_spec
      ⟨[⟨"repo1", "org/repo1"⟩],
        fun _ => ⟨some [], some [],
          some [⟨"alice", 10, [⟨100, 50, 10⟩]⟩, ⟨"dependabot[bot]", 3, [⟨10, 5, 3⟩]⟩],
          some [], some []⟩⟩
      "org" ⟨none, none, none, false, [], false, 0, "commits"⟩
      ⟨"dependabot[bot]", 3, 10, 5⟩ "x" rfl).2.2.2.2⟩

/-- C6: a positive `min_commits` drops exactly the contributors whose
merged commit total is below it, and `min_commits = 0` performs no
filtering at all. -/
theorem min_commits_spec (client : ForgeClient) (org : String) (opts : Options)
    (c : ContributorStats) :
    (List.count c (aggregate client org opts).contributors
        = if 0 < opts.min_commits ∧ c.commits < opts.min_commits then 0
          else List.count c
            (aggregate client org { opts with min_commits := 0 }).contributors)
      ∧ (opts.min_commits = 0 → ∀ l : List ContributorStats,
          filterContribs opts l
            = if opts.exclude_bots then l.filter (fun x => !is_bot x.username) else l) := by
  constructor
  · have hr0 : resolveRepos client org { opts with min_commits := 0 }
        = resolveRepos client org opts := resolveRepos_congr client org _ _ rfl rfl
    by_cases hpos : 0 < opts.min_commits
    · have hA : (aggregate client org opts).contributors
          = sortContribs opts.sort_by
              (((if opts.exclude_bots then
                  (mergeContribs (collectResults client.fetch
                    (resolveRepos client org opts)).1).filter (fun x => !is_bot x.username)
                else
                  mergeContribs (collectResults client.fetch
                    (resolveRepos client org opts)).1)).filter
                (fun x => opts.min_commits ≤ x.commits)) := by
        simp [aggregate, filterContribs, hpos]
      have hB : (aggregate client org { opts with min_commits := 0 }).contributors
          = sortContribs opts.sort_by
              (if opts.exclude_bots then
                (mergeContribs (collectResults client.fetch
                  (resolveRepos client org opts)).1).filter (fun x => !is_bot x.username)
              else
                mergeContribs (collectResults client.fetch
                  (resolveRepos client org opts)).1) := by
        simp [aggregate, filterContribs, hr0]
      rw [hA, hB, count_sortContribs, count_sortContribs, count_filter_ite]
      by_cases hle : opts.min_commits ≤ c.commits
      · have : ¬(0 < opts.min_commits ∧ c.commits < opts.min_commits) := by omega
        simp [hle, this]
      · have : 0 < opts.min_commits ∧ c.commits < opts.min_commits := by omega
        simp [hle, this]
    · have hzero : opts.min_commits = 0 := by omega
      have hopts : ({ opts with min_commits := 0 } : Options) = opts := by
        cases opts
        simp_all
      rw [hopts]
      simp [hpos]
  · intro h l
    simp [filterContribs, h]

/-- C6 witness: with `min_commits = 0` the threshold stage keeps every
contributor, including one with zero commits. -/
theorem min_commits_spec_witness :
    (List.count ⟨"alice", 0, 7, 3⟩
        (aggregate
          ⟨[⟨"repo1", "org/repo1"⟩],
            fun _ => ⟨some [], some [], some [⟨"alice", 0, [⟨7, 3, 0⟩]⟩], some [], some []⟩⟩
          "org" ⟨none, none, none, false, [], false, 0, "commits"⟩).contributors
      = if 0 < (⟨none, none, none, false, [], false, 0, "commits"⟩ : Options).min_commits
            ∧ (⟨"alice", 0, 7, 3⟩ : ContributorStats).commits
              < (⟨none, none, none, false, [], false, 0, "commits"⟩ : Options).min_commits then 0
        else List.count ⟨"alice", 0, 7, 3⟩
          (aggregate
            ⟨[⟨"repo1", "org/repo1"⟩],
              fun _ => ⟨some [], some [], some [⟨"alice", 0, [⟨7, 3, 0⟩]⟩], some [], some []⟩⟩
            "org"
            { (⟨none, none, none, false, [], false, 0, "commits"⟩ : Options) with
                min_commits := 0 }).contributors)
      ∧ filterContribs (⟨none, none, none, false, [], false, 0, "commits"⟩ : Options)
          [⟨"alice", 0, 7, 3⟩]
        = if (⟨none, none, none, false, [], false, 0, "commits"⟩ : Options).exclude_bots then
            [(⟨"alice", 0, 7, 3⟩ : ContributorStats)].filter (fun x => !is_bot x.username)
          else [⟨"alice", 0, 7, 3⟩] :=
  ⟨(min_commits_spec
      ⟨[⟨"repo1", "org/repo1"⟩],
        fun _ => ⟨some [], some [], some [⟨"alice", 0, [⟨7, 3, 0⟩]⟩], some [], some []⟩⟩
      "org" ⟨none, none, none, false, [], false, 0, "commits"⟩ ⟨"alice", 0, 7, 3⟩).1,
   (min_commits_spec
      ⟨[⟨"repo1", "org/repo1"⟩],
        fun _ => ⟨some [], some [], some [⟨"alice", 0, [⟨7, 3, 0⟩]⟩], some [], some []⟩⟩
      "org" ⟨none, none, none, false, [], false, 0, "commits"⟩ ⟨"alice", 0, 7, 3⟩).2 rfl
     [⟨"alice", 0, 7, 3⟩]⟩

/-! C1 — per-repository failure isolation. -/

theorem collectResults_append (fetch : String → RepoFetch) (l₁ l₂ : List RepoInfo) :
    collectResults fetch (l₁ ++ l₂)
      = ((collectResults fetch l₁).1 ++ (collectResults fetch l₂).1,
         (collectResults fetch l₁).2 ++ (collectResults fetch l₂).2) := by
  induction l₁ with
  | nil => simp [collectResults]
  | cons r rest ih =>
    simp only [List.cons_append, collectResults]
    cases h : collectRepo r (fetch r.name) <;> simp [h, ih]

/-- C1: a repository whose collection fails contributes exactly its name
to `failed_repos` (at its batch position), no RepoStats and nothing to
any total; the rest of the report is identical to the report of the batch
with that repository removed. -/
theorem aggregate_failure_isolated (client : ForgeClient) (org : String) (opts : Options)
    (pre post : List RepoInfo) (bad : RepoInfo)
    (hrepo : opts.repo = none)
    (hlist : client.list_repos = pre ++ bad :: post)
    (hexc : opts.exclude_repos.contains bad.name = false)
    (hfail : collectRepo bad (client.fetch bad.name) = none) :
    ∃ f₁ f₂ : List String,
      (aggregate client org opts).failed_repos = f₁ ++ bad.name :: f₂
        ∧ aggregate ⟨pre ++ post, client.fetch⟩ org opts
            = { aggregate client org opts with failed_repos := f₁ ++ f₂ } := by
  have hexc' : bad.name ∉ opts.exclude_repos := by simpa using hexc
  have hres1 : resolveRepos client org opts
      = pre.filter (fun r => !opts.exclude_repos.contains r.name)
          ++ bad :: post.filter (fun r => !opts.exclude_repos.contains r.name) := by
    simp [resolveRepos, hrepo, hlist, List.filter_append, List.filter_cons, hexc']
  have hres2 : resolveRepos ⟨pre ++ post, client.fetch⟩ org opts
      = pre.filter (fun r => !opts.exclude_repos.contains r.name)
          ++ post.filter (fun r => !opts.exclude_repos.contains r.name) := by
    simp [resolveRepos, hrepo, List.filter_append]
  have h1 : collectResults client.fetch
        (pre.filter (fun r => !opts.exclude_repos.contains r.name)
          ++ bad :: post.filter (fun r => !opts.exclude_repos.contains r.name))
      = ((collectResults client.fetch
            (pre.filter (fun r => !opts.exclude_repos.contains r.name))).1
          ++ (collectResults client.fetch
            (post.filter (fun r => !opts.exclude_repos.contains r.name))).1,
         (collectResults client.fetch
            (pre.filter (fun r => !opts.exclude_repos.contains r.name))).2
          ++ bad.name :: (collectResults client.fetch
            (post.filter (fun r => !opts.exclude_repos.contains r.name))).2) := by
    rw [collectResults_append]
    simp [collectResults, hfail]
  have h2 : collectResults client.fetch
        (pre.filter (fun r => !opts.exclude_repos.contains r.name)
          ++ post.filter (fun r => !opts.exclude_repos.contains r.name))
      = ((collectResults client.fetch
            (pre.filter (fun r => !opts.exclude_repos.contains r.name))).1
          ++ (collectResults client.fetch
            (post.filter (fun r => !opts.exclude_repos.contains r.name))).1,
         (collectResults client.fetch
            (pre.filter (fun r => !opts.exclude_repos.contains r.name))).2
          ++ (collectResults client.fetch
            (post.filter (fun r => !opts.exclude_repos.contains r.name))).2) :=
    collectResults_append client.fetch _ _
  refine ⟨(collectResults client.fetch
      (pre.filter (fun r => !opts.exclude_repos.contains r.name))).2,
    (collectResults client.fetch
      (post.filter (fun r => !opts.exclude_repos.contains r.name))).2, ?_, ?_⟩
  · simp only [aggregate, hres1, h1]
  · simp only [aggregate, hres1, hres2, h1, h2]

/-- C1 witness: a two-repository batch whose first repository's
commit-listing call raises. -/
theorem aggregate_failure_isolated_witness :
    (⟨none, none, none, false, [], false, 0, "commits"⟩ : Options).repo = none
      ∧ (⟨none, none, none, false, [], false, 0, "commits"⟩ : Options).exclude_repos.contains
          (⟨"bad", "org/bad"⟩ : RepoInfo).name = false
      ∧ collectRepo ⟨"bad", "org/bad"⟩
          ((⟨[⟨"bad", "org/bad"⟩, ⟨"good", "org/good"⟩],
            fun n =>
              if n = "bad" then ⟨none, some [], some [], some [], some []⟩
              else ⟨some ["sha"], some [("Python", 1000)], some [], some [], some []⟩⟩ :
            ForgeClient).fetch (⟨"bad", "org/bad"⟩ : RepoInfo).name) = none
      ∧ ∃ f₁ f₂ : List String,
          (aggregate
            ⟨[⟨"bad", "org/bad"⟩, ⟨"good", "org/good"⟩],
              fun n =>
                if n = "bad" then ⟨none, some [], some [], some [], some []⟩
                else ⟨some ["sha"], some [("Python", 1000)], some [], some [], some []⟩⟩
            "org" ⟨none, none, none, false, [], false, 0, "commits"⟩).failed_repos
            = f₁ ++ (⟨"bad", "org/bad"⟩ : RepoInfo).name :: f₂
          ∧ aggregate ⟨[] ++ [⟨"good", "org/good"⟩],
                (⟨[⟨"bad", "org/bad"⟩, ⟨"good", "org/good"⟩],
                  fun n =>
                    if n = "bad" then ⟨none, some [], some [], some [], some []⟩
                    else ⟨some ["sha"], some [("Python", 1000)], some [], some [], some []⟩⟩ :
                  ForgeClient).fetch⟩
              "org" ⟨none, none, none, false, [], false, 0, "commits"⟩
            = { aggregate
                  ⟨[⟨"bad", "org/bad"⟩, ⟨"good", "org/good"⟩],
                    fun n =>
                      if n = "bad" then ⟨none, some [], some [], some [], some []⟩
                      else ⟨some ["sha"], some [("Python", 1000)], some [], some [], some []⟩⟩
                  "org" ⟨none, none, none, false, [], false, 0, "commits"⟩ with
                failed_repos := f₁ ++ f₂ } :=
  ⟨rfl, rfl, rfl,
    aggregate_failure_isolated
      ⟨[⟨"bad", "org/bad"⟩, ⟨"good", "org/good"⟩],
        fun n =>
          if n = "bad" then ⟨none, some [], some [], some [], some []⟩
          else ⟨some ["sha"], some [("Python", 1000)], some [], some [], some []⟩⟩
      "org" ⟨none, none, none, false, [], false, 0, "commits"⟩
      [] [⟨"good", "org/good"⟩] ⟨"bad", "org/bad"⟩ rfl rfl rfl rfl⟩

/-! C3 — organization-wide contributor merge. -/

/-- Occurrences of username `u` in a contributor list. -/
def occAt (u : String) (l : List ContributorStats) : List ContributorStats :=
  l.filter (fun c => c.username == u)

theorem occAt_nil (u : String) : occAt u [] = [] := rfl

theorem occAt_cons (u : String) (x : ContributorStats) (l : List ContributorStats) :
    occAt u (x :: l) = if x.username = u then x :: occAt u l else occAt u l := by
  by_cases h : x.username = u <;> simp [occAt, List.filter_cons, h]

theorem occAt_addContrib_sum (u : String) (f : ContributorStats → Nat)
    (hf : ∀ x y, f (combine x y) = f x + f y)
    (acc : List ContributorStats) (c : ContributorStats) :
    ((occAt u (addContrib acc c)).map f).sum
      = ((occAt u acc).map f).sum + (if c.username = u then f c else 0) := by
  induction acc with
  | nil =>
    by_cases h : c.username = u <;> simp [addContrib, occAt_cons, occAt_nil, h]
  | cons a rest ih =>
    by_cases hac : a.username = c.username
    · have hcomb : (combine a c).username = a.username := rfl
      by_cases hu : a.username = u
      · have hcu : c.username = u := hac.symm.trans hu
        simp only [addContrib, if_pos hac, occAt_cons, hcomb, if_pos hu, if_pos hcu,
          List.map_cons, List.sum_cons, hf]
        omega
      · have hcu : ¬ c.username = u := fun h => hu (hac.trans h)
        simp only [addContrib, if_pos hac, occAt_cons, hcomb, if_neg hu, if_neg hcu]
        simp
    · by_cases hu : a.username = u
      · simp only [addContrib, if_neg hac, occAt_cons, if_pos hu, List.map_cons,
          List.sum_cons, ih]
        omega
      · simp only [addContrib, if_neg hac, occAt_cons, if_neg hu, ih]

theorem occAt_addContrib_of_ne (u : String) (c : ContributorStats)
    (hcu : ¬ c.username = u) :
    ∀ acc : List ContributorStats, occAt u (addContrib acc c) = occAt u acc := by
  intro acc
  induction acc with
  | nil => simp [addContrib, occAt_cons, occAt_nil, hcu]
  | cons a rest ih =>
    by_cases hac : a.username = c.username
    · have hu : ¬ a.username = u := fun h => hcu (hac.symm.trans h)
      have hcomb : (combine a c).username = a.username := rfl
      simp only [addContrib, if_pos hac, occAt_cons, hcomb, if_neg hu]
    · simp only [addContrib, if_neg hac, occAt_cons, ih]

theorem occAt_addContrib_of_eq (u : String) (c : ContributorStats)
    (hcu : c.username = u) :
    ∀ acc : List ContributorStats,
      (occAt u (addContrib acc c)).length
        = if occAt u acc = [] then 1 else (occAt u acc).length := by
  intro acc
  induction acc with
  | nil => simp [addContrib, occAt_cons, occAt_nil, hcu]
  | cons a rest ih =>
    by_cases hac : a.username = c.username
    · have hau : a.username = u := hac.trans hcu
      have hcomb : (combine a c).username = a.username := rfl
      simp only [addContrib, if_pos hac, occAt_cons, hcomb, if_pos hau]
      simp
    · have hau : ¬ a.username = u := fun h => hac (h.trans hcu.symm)
      simp only [addContrib, if_neg hac, occAt_cons, if_neg hau, ih]

theorem occAt_foldl_sum (u : String) (f : ContributorStats → Nat)
    (hf : ∀ x y, f (combine x y) = f x + f y) :
    ∀ (l acc : List ContributorStats),
      ((occAt u (l.foldl addContrib acc)).map f).sum
        = ((occAt u acc).map f).sum + ((occAt u l).map f).sum := by
  intro l
  induction l with
  | nil =>
    intro acc
    simp [occAt_nil]
  | cons c l ih =>
    intro acc
    rw [List.foldl_cons, ih (addContrib acc c), occAt_addContrib_sum u f hf, occAt_cons]
    by_cases h : c.username = u
    · simp [h]
      omega
    · simp [h]

theorem occAt_foldl_once (u : String) :
    ∀ (l acc : List ContributorStats), (occAt u acc).length ≤ 1 →
      (occAt u (l.foldl addContrib acc)).length ≤ 1
        ∧ ((occAt u (l.foldl addContrib acc)).length = 1
            ↔ ((occAt u acc).length = 1
                ∨ l.any (fun c => c.username == u) = true)) := by
  intro l
  induction l with
  | nil =>
    intro acc h
    exact ⟨h, by simp⟩
  | cons c l ih =>
    intro acc h
    rw [List.foldl_cons]
    by_cases hcu : c.username = u
    · have hadd : (occAt u (addContrib acc c)).length = 1 := by
        rw [occAt_addContrib_of_eq u c hcu acc]
        split
        · rfl
        · rename_i hne
          have h0 : (occAt u acc).length ≠ 0 := by
            simpa [List.length_eq_zero] using hne
          omega
      obtain ⟨ha, hb⟩ := ih (addContrib acc c) (by omega)
      refine ⟨ha, ?_⟩
      rw [hb, hadd]
      simp [List.any_cons, hcu]
    · have hadd : occAt u (addContrib acc c) = occAt u acc :=
        occAt_addContrib_of_ne u c hcu acc
      obtain ⟨ha, hb⟩ := ih (addContrib acc c) (by rw [hadd]; exact h)
      refine ⟨ha, ?_⟩
      rw [hb, hadd]
      simp [List.any_cons, hcu]

theorem occAt_mergeContribs_length (u : String) (stats : List RepoStats)
    (happ : (stats.flatMap (fun s => s.contributors)).any
        (fun c => c.username == u) = true) :
    (occAt u (mergeContribs stats)).length = 1 := by
  have h := occAt_foldl_once u (stats.flatMap (fun s => s.contributors)) []
    (by simp [occAt_nil])
  exact h.2.mpr (Or.inr happ)

theorem occAt_mergeContribs_sum (u : String) (f : ContributorStats → Nat)
    (hf : ∀ x y, f (combine x y) = f x + f y) (stats : List RepoStats) :
    ((occAt u (mergeContribs stats)).map f).sum
      = ((occAt u (stats.flatMap (fun s => s.contributors))).map f).sum := by
  have h := occAt_foldl_sum u f hf (stats.flatMap (fun s => s.contributors)) []
  simpa [mergeContribs, occAt_nil] using h

theorem merged_unique_sum (stats : List RepoStats) (sort_by : String) (u : String)
    (happ : (stats.flatMap (fun s => s.contributors)).any (fun c => c.username == u) = true) :
    ∃ e : ContributorStats,
      (sortContribs sort_by (mergeContribs stats)).filter (fun c => c.username == u) = [e]
        ∧ e.username = u
        ∧ e.commits = (((stats.flatMap (fun s => s.contributors)).filter
            (fun c => c.username == u)).map (fun c => c.commits)).sum
        ∧ e.additions = (((stats.flatMap (fun s => s.contributors)).filter
            (fun c => c.username == u)).map (fun c => c.additions)).sum
        ∧ e.deletions = (((stats.flatMap (fun s => s.contributors)).filter
            (fun c => c.username == u)).map (fun c => c.deletions)).sum := by
  have hlen : (occAt u (mergeContribs stats)).length = 1 :=
    occAt_mergeContribs_length u stats happ
  obtain ⟨e, he⟩ := List.length_eq_one.mp hlen
  have hperm : (occAt u (sortContribs sort_by (mergeContribs stats))).Perm
      (occAt u (mergeContribs stats)) :=
    List.Perm.filter _ (sortDesc_perm _ _)
  have hocc : occAt u (sortContribs sort_by (mergeContribs stats)) = [e] :=
    List.perm_singleton.mp (he ▸ hperm)
  have heu : e.username = u := by
    have hm : e ∈ occAt u (mergeContribs stats) := by
      rw [he]
      exact List.mem_singleton_self e
    have := (List.mem_filter.mp hm).2
    simpa using this
  have hsum : ∀ (f : ContributorStats → Nat), (∀ x y, f (combine x y) = f x + f y) →
      f e = ((occAt u (stats.flatMap (fun s => s.contributors))).map f).sum := by
    intro f hf
    have h1 := occAt_mergeContribs_sum u f hf stats
    rw [he] at h1
    simpa using h1
  exact ⟨e, hocc, heu, hsum (fun c => c.commits) (fun x y => rfl),
    hsum (fun c => c.additions) (fun x y => rfl),
    hsum (fun c => c.deletions) (fun x y => rfl)⟩

/-- C3: a username appearing in the successfully processed repositories
has exactly one entry in the organization-wide contributor list, whose
commits, additions and deletions each equal the sum of that username's
per-repository values. -/
theorem contributor_merge_spec (client : ForgeClient) (org : String) (opts : Options)
    (u : String) (hbots : opts.exclude_bots = false) (hmin : opts.min_commits = 0)
    (happ : ((aggregate client org opts).repos.flatMap (fun s => s.contributors)).any
        (fun c => c.username == u) = true) :
    ∃ e : ContributorStats,
      (aggregate client org opts).contributors.filter (fun c => c.username == u) = [e]
        ∧ e.username = u
        ∧ e.commits = ((((aggregate client org opts).repos.flatMap
            (fun s => s.contributors)).filter (fun c => c.username == u)).map
              (fun c => c.commits)).sum
        ∧ e.additions = ((((aggregate client org opts).repos.flatMap
            (fun s => s.contributors)).filter (fun c => c.username == u)).map
              (fun c => c.additions)).sum
        ∧ e.deletions = ((((aggregate client org opts).repos.flatMap
            (fun s => s.contributors)).filter (fun c => c.username == u)).map
              (fun c => c.deletions)).sum := by
  have hcontrib : (aggregate client org opts).contributors
      = sortContribs opts.sort_by (mergeContribs (aggregate client org opts).repos) := by
    simp [aggregate, filterContribs, hbots, hmin]
  rw [hcontrib]
  exact merged_unique_sum (aggregate client org opts).repos opts.sort_by u happ

/-- C3 witness: `alice` appears in two repositories with lifetime totals
10 and 5; the merged report carries a single entry for her. -/
theorem contributor_merge_spec_witness :
    (⟨none, none, none, false, [], false, 0, "commits"⟩ : Options).exclude_bots = false
      ∧ (⟨none, none, none, false, [], false, 0, "commits"⟩ : Options).min_commits = 0
      ∧ (((aggregate
            ⟨[⟨"repo1", "org/repo1"⟩, ⟨"repo2", "org/repo2"⟩],
              fun n =>
                if n = "repo2" then
                  ⟨some ["c2"], some [], some [⟨"alice", 5, [⟨40, 20, 5⟩]⟩], some [], some []⟩
                else
                  ⟨some ["c1"], some [],
                    some [⟨"alice", 10, [⟨100, 50, 10⟩]⟩, ⟨"bob", 2, [⟨7, 3, 2⟩]⟩],
                    some [], some []⟩⟩
            "org" ⟨none, none, none, false, [], false, 0, "commits"⟩).repos.flatMap
              (fun s => s.contributors)).any (fun c => c.username == "alice")) = true
      ∧ ∃ e : ContributorStats,
          (aggregate
            ⟨[⟨"repo1", "org/repo1"⟩, ⟨"repo2", "org/repo2"⟩],
              fun n =>
                if n = "repo2" then
                  ⟨some ["c2"], some [], some [⟨"alice", 5, [⟨40, 20, 5⟩]⟩], some [], some []⟩
                else
                  ⟨some ["c1"], some [],
                    some [⟨"alice", 10, [⟨100, 50, 10⟩]⟩, ⟨"bob", 2, [⟨7, 3, 2⟩]⟩],
                    some [], some []⟩⟩
            "org" ⟨none, none, none, false, [], false, 0, "commits"⟩).contributors.filter
              (fun c => c.username == "alice") = [e]
            ∧ e.username = "alice"
            ∧ e.commits = ((((aggregate
                ⟨[⟨"repo1", "org/repo1"⟩, ⟨"repo2", "org/repo2"⟩],
                  fun n =>
                    if n = "repo2" then
                      ⟨some ["c2"], some [], some [⟨"alice", 5, [⟨40, 20, 5⟩]⟩], some [], some []⟩
                    else
                      ⟨some ["c1"], some [],
                        some [⟨"alice", 10, [⟨100, 50, 10⟩]⟩, ⟨"bob", 2, [⟨7, 3, 2⟩]⟩],
                        some [], some []⟩⟩
                "org" ⟨none, none, none, false, [], false, 0, "commits"⟩).repos.flatMap
                  (fun s => s.contributors)).filter (fun c => c.username == "alice")).map
                    (fun c => c.commits)).sum
            ∧ e.additions = ((((aggregate
                ⟨[⟨"repo1", "org/repo1"⟩, ⟨"repo2", "org/repo2"⟩],
                  fun n =>
                    if n = "repo2" then
                      ⟨some ["c2"], some [], some [⟨"alice", 5, [⟨40, 20, 5⟩]⟩], some [], some []⟩
                    else
                      ⟨some ["c1"], some [],
                        some [⟨"alice", 10, [⟨100, 50, 10⟩]⟩, ⟨"bob", 2, [⟨7, 3, 2⟩]⟩],
                        some [], some []⟩⟩
                "org" ⟨none, none, none, false, [], false, 0, "commits"⟩).repos.flatMap
                  (fun s => s.contributors)).filter (fun c => c.username == "alice")).map
                    (fun c => c.additions)).sum
            ∧ e.deletions = ((((aggregate
                ⟨[⟨"repo1", "org/repo1"⟩, ⟨"repo2", "org/repo2"⟩],
                  fun n =>
                    if n = "repo2" then
                      ⟨some ["c2"], some [], some [⟨"alice", 5, [⟨40, 20, 5⟩]⟩], some [], some []⟩
                    else
                      ⟨some ["c1"], some [],
                        some [⟨"alice", 10, [⟨100, 50, 10⟩]⟩, ⟨"bob", 2, [⟨7, 3, 2⟩]⟩],
                        some [], some []⟩⟩
                "org" ⟨none, none, none, false, [], false, 0, "commits"⟩).repos.flatMap
                  (fun s => s.contributors)).filter (fun c => c.username == "alice")).map
                    (fun c => c.deletions)).sum :=
  ⟨rfl, rfl, by decide,
    contributor_merge_spec
      ⟨[⟨"repo1", "org/repo1"⟩, ⟨"repo2", "org/repo2"⟩],
        fun n =>
          if n = "repo2" then
            ⟨some ["c2"], some [], some [⟨"alice", 5, [⟨40, 20, 5⟩]⟩], some [], some []⟩
          else
            ⟨some ["c1"], some [],
              some [⟨"alice", 10, [⟨100, 50, 10⟩]⟩, ⟨"bob", 2, [⟨7, 3, 2⟩]⟩],
              some [], some []⟩⟩
      "org" ⟨none, none, none, false, [], false, 0, "commits"⟩ "alice" rfl rfl (by decide)⟩

end VibeStats
